import Mathlib

/-!
Shallow embedding of the point-cloud viewer repository (class `Viewer` in
`src/viewer.ts`, entry point `src/index.ts`).

Each method of the class becomes a pure function from a `Viewer` state to a new
state.  Calls into the host environment — DOM mutation, listener registration,
the frame scheduler, the external rendering engine (three.js) and the external
point-cloud library (potree) — are recorded in order as a `List Effect`.  A
JavaScript `TypeError` (property access on `undefined` or `null`) is modelled as
an `Except.error`; the effects performed before the throw are still reported,
matching JavaScript semantics.  The asynchronous `load` is modelled by applying
the viewer's promise continuation to the external loader's settled outcome.
-/

/-- A JavaScript runtime error surfaced by the viewer code.  The only kind this
code can raise by itself is a `TypeError` from dereferencing `undefined`/`null`. -/
inductive JsError where
  | typeError
  deriving DecidableEq

/-- A JavaScript value as stored by the viewer in a material field: either a
number or a raw string (the opacity/size handlers assign `e.target.value`, which
is a string, directly to the material field). -/
inductive JSValue where
  | num (q : ℚ)
  | str (s : String)
  deriving DecidableEq

/-- The result of JavaScript string-to-number conversion: `NaN`, a signed
infinity, or a finite value.  Finite values are kept as exact rationals — the
rounding of decimal literals to binary64 and the overflow of huge exponents to
`Infinity` are not modelled, which leaves the `NaN`-or-not distinction (all the
handlers' guard consumes) exact. -/
inductive JSNum where
  | nan
  | inf (negative : Bool)
  | finite (q : ℚ)
  deriving DecidableEq

/-- Is this conversion result `NaN` (the JavaScript `isNaN` test on it)? -/
def JSNum.isNaN : JSNum → Bool
  | JSNum.nan => true
  | JSNum.inf _ => false
  | JSNum.finite _ => false

/-- JavaScript unary minus on a conversion result. -/
def JSNum.neg : JSNum → JSNum
  | JSNum.nan => JSNum.nan
  | JSNum.inf b => JSNum.inf (!b)
  | JSNum.finite q => JSNum.finite (-q)

/-- Is `c` one of the whitespace characters stripped by JavaScript
string-to-number conversion (space, tab, newline, carriage return, vertical
tab, form feed, no-break space, byte-order mark; the rarer Unicode space
separators are omitted)? -/
def jsWhitespace (c : Char) : Bool :=
  c = ' ' || c = '\t' || c = '\n' || c = '\r' || c = '\x0b' || c = '\x0c' ||
    c = '\u00A0' || c = '\uFEFF'

/-- Splits off the leading run of decimal digits. -/
def takeDigits : List Char → List Char × List Char
  | [] => ([], [])
  | c :: cs =>
    if c.isDigit then
      let p := takeDigits cs
      (c :: p.1, p.2)
    else ([], c :: cs)

/-- The natural number denoted by a list of decimal digits. -/
def digitsToNat (l : List Char) : ℕ :=
  l.foldl (fun a c => 10 * a + (c.toNat - 48)) 0

/-- The value of `c` as a digit in an arbitrary radix (0-9, a-z, A-Z); out of
range characters get 99, which no radix up to 36 accepts. -/
def digitVal (c : Char) : ℕ :=
  if c.isDigit then c.toNat - 48
  else if 'a' ≤ c ∧ c ≤ 'z' then c.toNat - 87
  else if 'A' ≤ c ∧ c ≤ 'Z' then c.toNat - 55
  else 99

/-- Splits off the leading run of digits valid in the given radix. -/
def takeRadixDigits (radix : ℕ) : List Char → List Char × List Char
  | [] => ([], [])
  | c :: cs =>
    if digitVal c < radix then
      let p := takeRadixDigits radix cs
      (c :: p.1, p.2)
    else ([], c :: cs)

/-- The natural number denoted by a digit list in the given radix. -/
def radixToNat (radix : ℕ) (l : List Char) : ℕ :=
  l.foldl (fun a c => radix * a + digitVal c) 0

/-- Parses the digits of a non-decimal integer literal (after `0x`, `0o` or
`0b`): at least one digit, nothing may follow, no sign or fraction allowed. -/
def parseRadix (radix : ℕ) (cs : List Char) : JSNum :=
  let p := takeRadixDigits radix cs
  if p.1 ≠ [] ∧ p.2 = [] then JSNum.finite (radixToNat radix p.1) else JSNum.nan

/-- Parses an optional exponent part closing a decimal literal: either nothing,
or `e`/`E`, an optional sign, and at least one digit consuming the rest;
`none` means the literal is malformed (`NaN`). -/
def parseExpPart (cs : List Char) : Option ℤ :=
  match cs with
  | [] => some 0
  | e :: r1 =>
    if e = 'e' ∨ e = 'E' then
      let signed : Bool × List Char :=
        match r1 with
        | '-' :: r2 => (true, r2)
        | '+' :: r2 => (false, r2)
        | _ => (false, r1)
      let ed := takeDigits signed.2
      if ed.1 ≠ [] ∧ ed.2 = [] then
        some (if signed.1 then -(digitsToNat ed.1 : ℤ) else (digitsToNat ed.1 : ℤ))
      else none
    else none

/-- Parses an unsigned decimal literal of the `Number(string)` grammar: the
word `Infinity`, or digits with an optional decimal point and an optional
exponent part, requiring at least one mantissa digit. -/
def parseUnsignedDec (cs : List Char) : JSNum :=
  if cs = ['I', 'n', 'f', 'i', 'n', 'i', 't', 'y'] then JSNum.inf false
  else
    let ip := takeDigits cs
    match ip.2 with
    | '.' :: r2 =>
      let fp := takeDigits r2
      if ip.1 = [] ∧ fp.1 = [] then JSNum.nan
      else
        match parseExpPart fp.2 with
        | none => JSNum.nan
        | some ex =>
          JSNum.finite
            (((digitsToNat ip.1 : ℚ) + (digitsToNat fp.1 : ℚ) / 10 ^ fp.1.length)
              * 10 ^ ex)
    | r1 =>
      if ip.1 = [] then JSNum.nan
      else
        match parseExpPart r1 with
        | none => JSNum.nan
        | some ex => JSNum.finite ((digitsToNat ip.1 : ℚ) * 10 ^ ex)

/-- Model of JavaScript `Number(string)` over the full string-numeric-literal
grammar: surrounding whitespace is stripped; the empty (or all-whitespace)
string converts to `0`, exactly as in JavaScript — which is why the source
guards the opacity/size handlers with an additional emptiness check; `0x`/`0X`,
`0o`/`0O` and `0b`/`0B` open unsigned hexadecimal, octal and binary integer
literals; everything else is an optionally signed decimal literal with an
optional fraction and exponent, or the signed word `Infinity`. -/
def jsNumber (s : String) : JSNum :=
  let cs := ((s.toList.dropWhile jsWhitespace).reverse.dropWhile jsWhitespace).reverse
  match cs with
  | [] => JSNum.finite 0
  | '0' :: 'x' :: rest => parseRadix 16 rest
  | '0' :: 'X' :: rest => parseRadix 16 rest
  | '0' :: 'o' :: rest => parseRadix 8 rest
  | '0' :: 'O' :: rest => parseRadix 8 rest
  | '0' :: 'b' :: rest => parseRadix 2 rest
  | '0' :: 'B' :: rest => parseRadix 2 rest
  | '-' :: rest => (parseUnsignedDec rest).neg
  | '+' :: rest => parseUnsignedDec rest
  | _ => parseUnsignedDec cs

/-- JavaScript ToNumber applied to a stored value: numbers are themselves,
strings go through string-to-number conversion. -/
def JSValue.toNumber : JSValue → JSNum
  | JSValue.num q => JSNum.finite q
  | JSValue.str s => jsNumber s

/-- Point-rendering shapes of the external point-cloud library
(`PointShape` in `@pnext/three-loader`). -/
inductive PointShape where
  | SQUARE
  | CIRCLE
  | PARABOLOID
  deriving DecidableEq

/-- Point color modes of the external point-cloud library (`PointColorType`);
`other` stands for any of the remaining modes the viewer never assigns. -/
inductive PointColorType where
  | RGB
  | RGB_HEIGHT
  | other
  deriving DecidableEq

/-- The mutable material of a loaded point cloud, restricted to the fields this
viewer touches.  `opacity` and `size` have type `JSValue` because the handlers
assign the raw event string to them. -/
structure PointCloudMaterial where
  pointColorType : PointColorType
  shape : PointShape
  opacity : JSValue
  size : JSValue
  deriving DecidableEq

/-- A point-cloud handle (`PointCloudOctree`) returned by the external loader.
The field `id` models JavaScript object identity; it is what the scene graph
stores when the handle is added to the scene root. -/
structure PointCloudOctree where
  id : ℕ
  material : PointCloudMaterial
  deriving DecidableEq

/-- The exact rational value of the IEEE-754 double `Math.PI`. -/
def mathPI : ℚ := 884279719003555 / 281474976710656

/-- The camera-control object of the external rendering engine
(`OrbitControls`), restricted to the fields the viewer configures.
`maxDistance := none` models `Infinity`. -/
structure OrbitControls where
  enableDamping : Bool
  dampingFactor : ℚ
  screenSpacePanning : Bool
  minDistance : ℚ
  maxDistance : Option ℚ
  maxPolarAngle : ℚ
  deriving DecidableEq

/-- Construction-time defaults of the external `OrbitControls`: damping off,
damping factor 0.05, screen-space panning on, distance range 0 to `Infinity`,
polar angle up to pi. -/
def OrbitControls.defaults : OrbitControls where
  enableDamping := false
  dampingFactor := 5 / 100
  screenSpacePanning := true
  minDistance := 0
  maxDistance := none
  maxPolarAngle := mathPI

/-- The perspective camera, restricted to the fields the viewer touches;
`aspect := none` models the `NaN` passed by the constructor
(`new PerspectiveCamera(45, NaN, 0.1, 1000)`). -/
structure PerspectiveCamera where
  fov : ℚ
  aspect : Option ℚ
  near : ℚ
  far : ℚ
  deriving DecidableEq

/-- The slice of a DOM element observed by the viewer: whether the element has
a parent node, which of the four queried controls exist under it, and the size
of its bounding client rectangle. -/
structure HTMLElement where
  hasParent : Bool
  opacityInput : Bool
  sizeInput : Bool
  layersSelect : Bool
  shapeSelect : Bool
  rectW : ℚ
  rectH : ℚ
  deriving DecidableEq

/-- Which of the four UI controls a listener registration targets. -/
inductive UIControl where
  | opacity
  | size
  | layers
  | shape
  deriving DecidableEq

/-- One externally visible action of the viewer: a DOM mutation, a listener
registration or removal, a frame-scheduler call, or a call into the rendering
engine or the point-cloud library.  `updateCall dt` and `renderCall` mark the
loop invoking the viewer's own `update` (with elapsed time `dt`) and `render`. -/
inductive Effect where
  | appendCanvas
  | removeCanvas
  | replaceTargetWithClone
  | addWindowResizeListener
  | removeWindowResizeListener
  | addInputListener (ctl : UIControl)
  | setRendererSize (w h : ℚ)
  | requestAnimFrame
  | cancelAnimFrame (handle : ℕ)
  | controlsUpdate
  | potreeUpdate (ids : List ℕ)
  | rendererClear
  | rendererRender
  | sceneAdd (id : ℕ)
  | updateCall (dt : ℚ)
  | renderCall
  deriving DecidableEq

/-- An error carried by a rejected load promise; produced by the external
loader, passed through by the viewer. -/
structure LoadError where
  msg : String
  deriving DecidableEq

/-- The instance state of class `Viewer`: target element, camera, renderer
size, camera controls, scene-graph children, the list of loaded point clouds,
the previous frame timestamp, and the stored frame-callback handle. -/
structure Viewer where
  targetEl : Option HTMLElement
  camera : PerspectiveCamera
  rendererSize : Option (ℚ × ℚ)
  orbitControls : Option OrbitControls
  scene : List ℕ
  pointClouds : List PointCloudOctree
  prevTime : Option ℚ
  reqAnimationFrameHandle : Option ℕ
  deriving DecidableEq

/-- A freshly constructed viewer (`new Viewer()`): no target element, camera
`PerspectiveCamera(45, NaN, 0.1, 1000)`, default controls, empty scene, empty
point-cloud list, no previous timestamp, no stored frame handle. -/
def Viewer.new : Viewer where
  targetEl := none
  camera := { fov := 45, aspect := none, near := 1 / 10, far := 1000 }
  rendererSize := none
  orbitControls := some OrbitControls.defaults
  scene := []
  pointClouds := []
  prevTime := none
  reqAnimationFrameHandle := none

/-- JavaScript division used for the aspect value; `none` models the non-finite
result when the height is 0. -/
def jsDiv (w h : ℚ) : Option ℚ := if h = 0 then none else some (w / h)

/-- Method `resize`: reads the target's bounding client rectangle, sets the
camera aspect from it, and resizes the render surface.  Dereferencing an unset
target throws. -/
def Viewer.resize (v : Viewer) : List Effect × Except JsError Viewer :=
  match v.targetEl with
  | none => ([], Except.error JsError.typeError)
  | some el =>
    ([Effect.setRendererSize el.rectW el.rectH],
      Except.ok { v with
        camera := { v.camera with aspect := jsDiv el.rectW el.rectH },
        rendererSize := some (el.rectW, el.rectH) })

/-- The source method named `initialize` (given a shorter Lean name).  Guard:
with the target already set, or with an absent argument, it returns at once.
Otherwise it records the target, appends the canvas, configures the controls
(damping on with factor 0.05, screen-space panning off, distance range 10 to 50,
polar angle at most half pi), resizes, registers the window resize listener and
the four control listeners — a missing control makes the unguarded
`addEventListener` call throw — and schedules the first frame.  The frame handle
returned by that first scheduling call is discarded, exactly as in the source. -/
def Viewer.init (v : Viewer) (arg : Option HTMLElement) : List Effect × Except JsError Viewer :=
  if v.targetEl.isSome || arg.isNone then ([], Except.ok v)
  else
    match arg with
    | none => ([], Except.ok v)
    | some el =>
      match v.orbitControls with
      | none => ([Effect.appendCanvas], Except.error JsError.typeError)
      | some oc =>
        let oc2 : OrbitControls := { oc with
          enableDamping := true
          dampingFactor := 5 / 100
          screenSpacePanning := false
          minDistance := 10
          maxDistance := some 50
          maxPolarAngle := mathPI / 2 }
        let va : Viewer := { v with targetEl := some el, orbitControls := some oc2 }
        match va.resize with
        | (rfx, Except.error e) => (Effect.appendCanvas :: rfx, Except.error e)
        | (rfx, Except.ok vb) =>
          let fx1 := Effect.appendCanvas :: rfx ++ [Effect.addWindowResizeListener]
          if el.opacityInput = false then (fx1, Except.error JsError.typeError)
          else
            let fx2 := fx1 ++ [Effect.addInputListener UIControl.opacity]
            if el.sizeInput = false then (fx2, Except.error JsError.typeError)
            else
              let fx3 := fx2 ++ [Effect.addInputListener UIControl.size]
              if el.layersSelect = false then (fx3, Except.error JsError.typeError)
              else
                let fx4 := fx3 ++ [Effect.addInputListener UIControl.layers]
                if el.shapeSelect = false then (fx4, Except.error JsError.typeError)
                else
                  (fx4 ++ [Effect.addInputListener UIControl.shape, Effect.requestAnimFrame],
                    Except.ok vb)

/-- Method `destroy`: removes the canvas from the target, replaces the target
with a clone of itself (dropping every descendant listener), clears the target
and controls fields, removes the window resize listener, empties the point-cloud
list, and cancels the frame callback if a handle is recorded.  Its very first
statement dereferences `this.targetEl`, so an unset target throws before any
cleanup; an absent parent node throws at the clone-replacement step. -/
def Viewer.destroy (v : Viewer) : List Effect × Except JsError Viewer :=
  match v.targetEl with
  | none => ([], Except.error JsError.typeError)
  | some el =>
    if el.hasParent then
      let fx := [Effect.removeCanvas, Effect.replaceTargetWithClone,
        Effect.removeWindowResizeListener]
      let v2 : Viewer := { v with targetEl := none, orbitControls := none, pointClouds := [] }
      match v.reqAnimationFrameHandle with
      | some fh => (fx ++ [Effect.cancelAnimFrame fh], Except.ok v2)
      | none => (fx, Except.ok v2)
    else ([Effect.removeCanvas], Except.error JsError.typeError)

/-- The URL resolver closure `load` hands to the external loader:
string-template concatenation of the base URL and the relative URL. -/
def loadUrlResolve (baseUrl url : String) : String := baseUrl ++ url

/-- The success continuation that `load` attaches with `.then`: sets the
handle's color mode to the plain-RGB default, adds the handle to the scene root,
and pushes it onto the internal list.  The third component is the continuation's
return value — the callback body has no return statement, so it is `none`
(JavaScript `undefined`), and that is what the promise returned by `load`
resolves with. -/
def Viewer.loadThen (v : Viewer) (pco : PointCloudOctree) :
    List Effect × Viewer × Option PointCloudOctree :=
  let pco2 : PointCloudOctree :=
    { pco with material := { pco.material with pointColorType := PointColorType.RGB } }
  ([Effect.sceneAdd pco2.id],
    { v with scene := v.scene ++ [pco2.id], pointClouds := v.pointClouds ++ [pco2] },
    none)

/-- Method `load`, applied to the settled outcome of the external loader's
promise.  A fulfilled outcome runs the `.then` continuation; a rejected outcome
bypasses it — `load` installs no rejection handler, so the rejection propagates
unchanged to the caller and the viewer is untouched. -/
def Viewer.load (v : Viewer) (result : Except LoadError PointCloudOctree) :
    List Effect × Viewer × Except LoadError (Option PointCloudOctree) :=
  match result with
  | Except.error e => ([], v, Except.error e)
  | Except.ok pco =>
    match v.loadThen pco with
    | (fx, v2, ret) => (fx, v2, Except.ok ret)

/-- Method `update(dt)`: one controls step, then the external point-cloud
manager's per-frame maintenance over the current list.  The parameter `dt` is
accepted but unused, as in the source.  Dereferencing cleared controls throws. -/
def Viewer.update (v : Viewer) (dt : ℚ) : List Effect × Except JsError Viewer :=
  match v.orbitControls with
  | none => ([], Except.error JsError.typeError)
  | some _ =>
    ([Effect.controlsUpdate, Effect.potreeUpdate (v.pointClouds.map PointCloudOctree.id)],
      Except.ok v)

/-- Method `render`: clear the render surface, then draw the scene. -/
def Viewer.render (_v : Viewer) : List Effect :=
  [Effect.rendererClear, Effect.rendererRender]

/-- Method `loop(time)`: first re-schedules itself, storing the handle `fh`
returned by the frame scheduler; then saves and replaces the previous timestamp.
With no previous timestamp it returns at once.  Otherwise it steps the controls,
calls `update` with the elapsed time, and calls `render`, in that order. -/
def Viewer.loop (v : Viewer) (fh : ℕ) (time : ℚ) : List Effect × Except JsError Viewer :=
  let v1 : Viewer := { v with reqAnimationFrameHandle := some fh }
  let prev := v1.prevTime
  let v2 : Viewer := { v1 with prevTime := some time }
  match prev with
  | none => ([Effect.requestAnimFrame], Except.ok v2)
  | some t0 =>
    match v2.orbitControls with
    | none => ([Effect.requestAnimFrame], Except.error JsError.typeError)
    | some _ =>
      match v2.update (time - t0) with
      | (ufx, Except.error e) =>
        (Effect.requestAnimFrame :: Effect.controlsUpdate
            :: Effect.updateCall (time - t0) :: ufx,
          Except.error e)
      | (ufx, Except.ok v3) =>
        (Effect.requestAnimFrame :: Effect.controlsUpdate
            :: Effect.updateCall (time - t0) :: (ufx ++ Effect.renderCall :: v3.render),
          Except.ok v3)

/-- Handler `configPointsShape`: a switch on the raw string value of the select
element.  "Square", "Circle" and "Paraboloid" set the corresponding shape on
every listed point cloud; any other label matches no case and nothing happens. -/
def Viewer.configPointsShape (v : Viewer) (value : String) : Viewer :=
  if value = "Square" then
    { v with pointClouds := v.pointClouds.map fun p =>
        { p with material := { p.material with shape := PointShape.SQUARE } } }
  else if value = "Circle" then
    { v with pointClouds := v.pointClouds.map fun p =>
        { p with material := { p.material with shape := PointShape.CIRCLE } } }
  else if value = "Paraboloid" then
    { v with pointClouds := v.pointClouds.map fun p =>
        { p with material := { p.material with shape := PointShape.PARABOLOID } } }
  else v

/-- Handler `changeLayer`: label "1" selects the plain RGB color mode, "2" the
elevation-based mode; any other label matches no case. -/
def Viewer.changeLayer (v : Viewer) (value : String) : Viewer :=
  if value = "1" then
    { v with pointClouds := v.pointClouds.map fun p =>
        { p with material := { p.material with pointColorType := PointColorType.RGB } } }
  else if value = "2" then
    { v with pointClouds := v.pointClouds.map fun p =>
        { p with material := { p.material with pointColorType := PointColorType.RGB_HEIGHT } } }
  else v

/-- Handler `changePointsOpacity`: guarded by
`!isNaN(Number(value)) && value != ""`; when the guard holds, the raw string is
assigned to every listed point cloud's opacity field. -/
def Viewer.changePointsOpacity (v : Viewer) (value : String) : Viewer :=
  if !(jsNumber value).isNaN && (value != "") then
    { v with pointClouds := v.pointClouds.map fun p =>
        { p with material := { p.material with opacity := JSValue.str value } } }
  else v

/-- Handler `changePointsSize`: the same numeric guard as the opacity handler,
applied to the size field. -/
def Viewer.changePointsSize (v : Viewer) (value : String) : Viewer :=
  if !(jsNumber value).isNaN && (value != "") then
    { v with pointClouds := v.pointClouds.map fun p =>
        { p with material := { p.material with size := JSValue.str value } } }
  else v

/-- A concrete target element with all four controls present and a parent node. -/
def elSample : HTMLElement where
  hasParent := true
  opacityInput := true
  sizeInput := true
  layersSelect := true
  shapeSelect := true
  rectW := 640
  rectH := 480

/-- A concrete point-cloud handle as delivered by the external loader. -/
def pcoSample : PointCloudOctree where
  id := 7
  material :=
    { pointColorType := PointColorType.other
      shape := PointShape.CIRCLE
      opacity := JSValue.num 1
      size := JSValue.num 1 }

/-- A concrete viewer in mid-flight: initialized onto `elSample`, one point
cloud loaded, a previous frame timestamp recorded, a frame handle stored. -/
def vReady : Viewer :=
  { Viewer.new with
    targetEl := some elSample
    reqAnimationFrameHandle := some 3
    prevTime := some 5
    pointClouds := [pcoSample] }

/-- The state `destroy` leaves `vReady` in. -/
def vDead : Viewer :=
  { vReady with targetEl := none, orbitControls := none, pointClouds := [] }

/-- A concrete viewer holding one point cloud, for the UI-handler claims. -/
def vUI : Viewer := { Viewer.new with pointClouds := [pcoSample] }

/-- C1: when the external loader resolves with handle `pco`, the success
continuation of `load` sets the handle's color mode to the fixed plain-RGB
default, adds it to the scene root, and appends it to the internal point-cloud
list, which therefore contains exactly one more entry than before the call. -/
theorem load_success_spec (pco : PointCloudOctree) (v : Viewer) :
    ((v.loadThen pco).2.1).pointClouds
        = v.pointClouds
            ++ [{ pco with material := { pco.material with pointColorType := PointColorType.RGB } }]
      ∧ ((v.loadThen pco).2.1).scene = v.scene ++ [pco.id]
      ∧ ((v.loadThen pco).2.1).pointClouds.length = v.pointClouds.length + 1 := by
  refine ⟨rfl, rfl, ?_⟩
  simp [Viewer.loadThen]

/-- C2: the success continuation of `load` has no return statement, so the
promise returned by `load` resolves with `undefined` (`none`) and not with the
loaded point-cloud handle, contradicting the method's declared return type and
its doc comment. -/
theorem load_resolution_bug (pco : PointCloudOctree) (v : Viewer) :
    (v.loadThen pco).2.2 = none
      ∧ (v.load (Except.ok pco)).2.2 = Except.ok none := ⟨rfl, rfl⟩

/-- C3: every invocation of `loop` re-schedules itself before any other work
(the frame-scheduler call heads the effect trace); with no recorded previous
timestamp it records the time and returns without calling `update` or `render`;
with previous timestamp `t0` it calls `update` with delta `t - t0` and then
`render`, in that order. -/
theorem loop_spec (fh : ℕ) (t : ℚ) (v : Viewer) :
    (v.loop fh t).1.head? = some Effect.requestAnimFrame
      ∧ (v.prevTime = none →
          v.loop fh t = ([Effect.requestAnimFrame],
            Except.ok { v with reqAnimationFrameHandle := some fh, prevTime := some t }))
      ∧ (∀ t0 : ℚ, v.prevTime = some t0 → v.orbitControls.isSome = true →
          (v.loop fh t).1
            = [Effect.requestAnimFrame, Effect.controlsUpdate, Effect.updateCall (t - t0),
               Effect.controlsUpdate,
               Effect.potreeUpdate (v.pointClouds.map PointCloudOctree.id),
               Effect.renderCall, Effect.rendererClear, Effect.rendererRender]) := by
  refine ⟨?_, ?_, ?_⟩
  · cases hp : v.prevTime with
    | none => simp [Viewer.loop, hp]
    | some t0 =>
      cases hc : v.orbitControls with
      | none => simp [Viewer.loop, hp, hc]
      | some oc => simp [Viewer.loop, Viewer.update, Viewer.render, hp, hc]
  · intro hp
    simp [Viewer.loop, hp]
  · intro t0 hp hc
    rw [Option.isSome_iff_exists] at hc
    obtain ⟨oc, hc⟩ := hc
    simp [Viewer.loop, Viewer.update, Viewer.render, hp, hc]

/-- C3 witness: on the concrete viewer `vReady` (previous timestamp 5, one
point cloud with identity 7), `loop` at time 12 with fresh handle 9 produces
exactly the re-schedule, controls, update-with-delta-7 and render trace. -/
theorem loop_spec_witness :
    (vReady.loop 9 12).1
      = [Effect.requestAnimFrame, Effect.controlsUpdate, Effect.updateCall (12 - 5),
         Effect.controlsUpdate, Effect.potreeUpdate [7],
         Effect.renderCall, Effect.rendererClear, Effect.rendererRender] :=
  (loop_spec 9 12 vReady).2.2 5 rfl rfl

/-- C4: calling the initialization method on an already-initialized viewer, or
with an absent target element, performs no effect and leaves the entire viewer
state unchanged; in particular the internal target stays unset in the
absent-argument case. -/
theorem init_guard_spec (arg : Option HTMLElement) (v : Viewer)
    (h : v.targetEl.isSome = true ∨ arg = none) :
    v.init arg = ([], Except.ok v) := by
  unfold Viewer.init
  rcases h with h | h <;> simp [h]

/-- C4 witness: a fresh viewer with an absent target element is untouched. -/
theorem init_guard_spec_witness :
    Viewer.new.init none = ([], Except.ok Viewer.new) :=
  init_guard_spec none Viewer.new (Or.inr rfl)

/-- C5: when the external loader's promise rejects, `load` performs no effect,
leaves the viewer (scene and internal list included) unchanged, and propagates
the rejection unchanged to the caller. -/
theorem load_reject_spec (e : LoadError) (v : Viewer) :
    v.load (Except.error e) = ([], v, Except.error e) := rfl

/-- C6: the success continuation of `load` performs no destroyed-guard check:
run against the state a completed `destroy` leaves behind (an empty point-cloud
list), it still adds the handle to the scene and appends it to the internal
list, which is therefore non-empty although `destroy` has completed. -/
theorem load_after_destroy_spec (v v2 : Viewer) (fx : List Effect) (pco : PointCloudOctree)
    (hd : v.destroy = (fx, Except.ok v2)) :
    ((v2.loadThen pco).2.1).pointClouds
        = [{ pco with material := { pco.material with pointColorType := PointColorType.RGB } }]
      ∧ ((v2.loadThen pco).2.1).pointClouds ≠ []
      ∧ ((v2.loadThen pco).2.1).scene = v2.scene ++ [pco.id] := by
  have hempty : v2.pointClouds = [] := by
    unfold Viewer.destroy at hd
    split at hd
    · exact absurd hd (by simp)
    · split at hd
      · split at hd
        · simp only [Prod.mk.injEq, Except.ok.injEq] at hd
          rw [← hd.2]
        · simp only [Prod.mk.injEq, Except.ok.injEq] at hd
          rw [← hd.2]
      · exact absurd hd (by simp)
  refine ⟨?_, ?_, rfl⟩
  · simp [Viewer.loadThen, hempty]
  · simp [Viewer.loadThen, hempty]

/-- C6 witness: destroying the concrete viewer `vReady` empties its list, and a
load continuation running afterwards still appends its handle, leaving exactly
that handle in the list. -/
theorem load_after_destroy_spec_witness :
    ((vDead.loadThen pcoSample).2.1).pointClouds
        = [{ pcoSample with
              material := { pcoSample.material with pointColorType := PointColorType.RGB } }]
      ∧ ((vDead.loadThen pcoSample).2.1).pointClouds ≠ []
      ∧ ((vDead.loadThen pcoSample).2.1).scene = vDead.scene ++ [pcoSample.id] :=
  load_after_destroy_spec vReady vDead
    [Effect.removeCanvas, Effect.replaceTargetWithClone,
      Effect.removeWindowResizeListener, Effect.cancelAnimFrame 3]
    pcoSample rfl

/-- C7: the opacity and size handlers fire exactly when the raw input string
converts to a number (its `Number` conversion is not `NaN`) and is non-empty;
they then assign the input to every listed point cloud, whose stored opacity
(resp. size) thereafter denotes the input's numeric conversion — the parsed
numeric value, e.g. one half for input "0.5"; an empty or non-converting input
changes nothing. -/
theorem opacity_size_spec (value : String) (v : Viewer) :
    ((jsNumber value).isNaN = false → value ≠ "" →
        (v.changePointsOpacity value).pointClouds
            = v.pointClouds.map (fun p =>
                { p with material := { p.material with opacity := JSValue.str value } })
          ∧ (∀ p ∈ (v.changePointsOpacity value).pointClouds,
              p.material.opacity.toNumber = jsNumber value)
          ∧ (v.changePointsSize value).pointClouds
            = v.pointClouds.map (fun p =>
                { p with material := { p.material with size := JSValue.str value } })
          ∧ (∀ p ∈ (v.changePointsSize value).pointClouds,
              p.material.size.toNumber = jsNumber value))
      ∧ ((jsNumber value).isNaN = true ∨ value = "" →
          v.changePointsOpacity value = v ∧ v.changePointsSize value = v) := by
  constructor
  · intro hn hne
    have hcond : (!(jsNumber value).isNaN && (value != "")) = true := by
      simp [hn, hne]
    refine ⟨?_, ?_, ?_, ?_⟩
    · simp [Viewer.changePointsOpacity, hcond]
    · intro p hp
      simp only [Viewer.changePointsOpacity, hcond, if_true] at hp
      simp only [List.mem_map] at hp
      obtain ⟨p0, hp0, rfl⟩ := hp
      rfl
    · simp [Viewer.changePointsSize, hcond]
    · intro p hp
      simp only [Viewer.changePointsSize, hcond, if_true] at hp
      simp only [List.mem_map] at hp
      obtain ⟨p0, hp0, rfl⟩ := hp
      rfl
  · intro hfail
    have hcond : (!(jsNumber value).isNaN && (value != "")) = false := by
      rcases hfail with h | h <;> simp [h]
    constructor <;> simp [Viewer.changePointsOpacity, Viewer.changePointsSize, hcond]

/-- C7 witness: on the concrete viewer `vUI`, the inputs "0.5" and "1e5" —
plain decimal and exponent notation both satisfy the real guard — are stored
into every point cloud's opacity resp. size, while the inputs "abc" and ""
change nothing. -/
theorem opacity_size_spec_witness :
    (vUI.changePointsOpacity "0.5").pointClouds
        = vUI.pointClouds.map (fun p =>
            { p with material := { p.material with opacity := JSValue.str "0.5" } })
      ∧ (vUI.changePointsSize "1e5").pointClouds
        = vUI.pointClouds.map (fun p =>
            { p with material := { p.material with size := JSValue.str "1e5" } })
      ∧ vUI.changePointsOpacity "abc" = vUI
      ∧ vUI.changePointsSize "" = vUI := by
  refine ⟨((opacity_size_spec "0.5" vUI).1 (by decide) (by decide)).1,
    ((opacity_size_spec "1e5" vUI).1 (by decide) (by decide)).2.2.1,
    ((opacity_size_spec "abc" vUI).2 (Or.inl (by decide))).1,
    ((opacity_size_spec "" vUI).2 (Or.inr rfl)).2⟩

/-- C8: the shape handler maps the labels "Square", "Circle" and "Paraboloid"
to the corresponding shape variant on every listed point cloud, and any other
label changes nothing — no error, no default assignment. -/
theorem shape_switch_spec (value : String) (v : Viewer) :
    (value = "Square" →
        v.configPointsShape value
          = { v with pointClouds := v.pointClouds.map (fun p =>
              { p with material := { p.material with shape := PointShape.SQUARE } }) })
      ∧ (value = "Circle" →
          v.configPointsShape value
            = { v with pointClouds := v.pointClouds.map (fun p =>
                { p with material := { p.material with shape := PointShape.CIRCLE } }) })
      ∧ (value = "Paraboloid" →
          v.configPointsShape value
            = { v with pointClouds := v.pointClouds.map (fun p =>
                { p with material := { p.material with shape := PointShape.PARABOLOID } }) })
      ∧ (value ≠ "Square" → value ≠ "Circle" → value ≠ "Paraboloid" →
          v.configPointsShape value = v) := by
  refine ⟨?_, ?_, ?_, ?_⟩
  · intro h; subst h; simp [Viewer.configPointsShape]
  · intro h; subst h; simp [Viewer.configPointsShape]
  · intro h; subst h; simp [Viewer.configPointsShape]
  · intro h1 h2 h3; simp [Viewer.configPointsShape, h1, h2, h3]

/-- C8 witness: on the concrete viewer `vUI`, label "Square" sets every point
cloud's shape to the square variant, while the unrecognized label "Hexagon"
changes nothing. -/
theorem shape_switch_spec_witness :
    vUI.configPointsShape "Square"
        = { vUI with pointClouds := vUI.pointClouds.map (fun p =>
            { p with material := { p.material with shape := PointShape.SQUARE } }) }
      ∧ vUI.configPointsShape "Hexagon" = vUI :=
  ⟨(shape_switch_spec "Square" vUI).1 rfl,
    (shape_switch_spec "Hexagon" vUI).2.2.2 (by decide) (by decide) (by decide)⟩

/-- C9: destroying an initialized viewer whose target element sits in the DOM
empties the internal point-cloud list, removes the global window-resize
listener, and cancels the pending frame callback exactly when the frame-handle
field is non-empty. -/
theorem destroy_cleanup_spec (v : Viewer) (el : HTMLElement)
    (hT : v.targetEl = some el) (hP : el.hasParent = true) :
    (v.destroy).2
        = Except.ok { v with targetEl := none, orbitControls := none, pointClouds := [] }
      ∧ Effect.removeWindowResizeListener ∈ (v.destroy).1
      ∧ (∀ fh : ℕ, Effect.cancelAnimFrame fh ∈ (v.destroy).1
          ↔ v.reqAnimationFrameHandle = some fh) := by
  cases hH : v.reqAnimationFrameHandle with
  | none =>
    refine ⟨?_, ?_, ?_⟩
    · simp [Viewer.destroy, hT, hP, hH]
    · simp [Viewer.destroy, hT, hP, hH]
    · intro fh; simp [Viewer.destroy, hT, hP, hH]
  | some fh0 =>
    refine ⟨?_, ?_, ?_⟩
    · simp [Viewer.destroy, hT, hP, hH]
    · simp [Viewer.destroy, hT, hP, hH]
    · intro fh
      simp [Viewer.destroy, hT, hP, hH, eq_comm]

/-- C9 witness: destroying the concrete viewer `vReady` (frame handle 3) yields
the cleared state, removes the resize listener, and cancels frame handle 3. -/
theorem destroy_cleanup_spec_witness :
    (vReady.destroy).2
        = Except.ok { vReady with targetEl := none, orbitControls := none, pointClouds := [] }
      ∧ Effect.removeWindowResizeListener ∈ (vReady.destroy).1
      ∧ (Effect.cancelAnimFrame 3 ∈ (vReady.destroy).1
          ↔ vReady.reqAnimationFrameHandle = some 3) :=
  ⟨(destroy_cleanup_spec vReady elSample rfl rfl).1,
    (destroy_cleanup_spec vReady elSample rfl rfl).2.1,
    (destroy_cleanup_spec vReady elSample rfl rfl).2.2 3⟩

/-- C10: `destroy` on a viewer that was never initialized dereferences the
unset target element in its very first statement and throws a `TypeError`; no
cleanup effect — list clearing, listener removal, frame cancellation — is
performed. -/
theorem destroy_uninit_spec (v : Viewer) (h : v.targetEl = none) :
    v.destroy = ([], Except.error JsError.typeError) := by
  unfold Viewer.destroy
  rw [h]

/-- C10 witness: a freshly constructed viewer throws on `destroy`. -/
theorem destroy_uninit_spec_witness :
    Viewer.new.destroy = ([], Except.error JsError.typeError) :=
  destroy_uninit_spec Viewer.new rfl
